import Mathlib

/-!
Shallow embedding of the viewing-geometry calculation core of
`streamlit_app.py` (function `main`, lines 146-189), over the reals.
Python floats are modelled by `ℝ`; `math.tan`, `math.atan`,
`math.radians` and `math.degrees` by `Real.tan`, `Real.arctan` and the
explicit degree/radian conversions below.
-/

namespace TVHeight

open Real

noncomputable section

/-- `math.radians(deg)` = deg · π / 180. -/
def radians (deg : ℝ) : ℝ := deg * π / 180

/-- `math.degrees(rad)` = rad · 180 / π. -/
def degrees (rad : ℝ) : ℝ := rad * 180 / π

/-- Line 148: `screen_width_inch = tv_size_inch * 0.87157`. -/
def screen_width_inch (tv_size_inch : ℝ) : ℝ := tv_size_inch * 0.87157

/-- Line 149: `screen_height_inch = tv_size_inch * 0.4903`. -/
def screen_height_inch (tv_size_inch : ℝ) : ℝ := tv_size_inch * 0.4903

/-- Line 150: `screen_width_cm = screen_width_inch * 2.54`. -/
def screen_width_cm (tv_size_inch : ℝ) : ℝ := screen_width_inch tv_size_inch * 2.54

/-- Line 151: `screen_height_cm = screen_height_inch * 2.54`. -/
def screen_height_cm (tv_size_inch : ℝ) : ℝ := screen_height_inch tv_size_inch * 2.54

/-- Lines 154-155: `rec_dist_inches = (screen_width_inch / 2) / tan(radians(angle_standard) / 2)`. -/
def rec_dist_inches (tv_size_inch angle_standard : ℝ) : ℝ :=
  (screen_width_inch tv_size_inch / 2) / Real.tan (radians angle_standard / 2)

/-- Line 156: `rec_dist_m = (rec_dist_inches * 2.54) / 100`. -/
def rec_dist_m (tv_size_inch angle_standard : ℝ) : ℝ :=
  rec_dist_inches tv_size_inch angle_standard * 2.54 / 100

/-- The `setup_mode` radio selector (line 109): ergonomic standard vs. reclined theater. -/
inductive SetupMode
  | ergonomic
  | reclined

/-- Lines 173-183 (height logic branch), centre height only:
ergonomic: `tv_centre_height_cm = eye_level_cm`;
reclined: `tv_centre_height_cm = eye_level_cm + final_dist_cm * 0.22`. -/
def tv_centre_height_cm (mode : SetupMode) (eye_level_cm final_dist_cm : ℝ) : ℝ :=
  match mode with
  | SetupMode.ergonomic => eye_level_cm
  | SetupMode.reclined => eye_level_cm + final_dist_cm * 0.22

/-- Lines 173-183 (height logic branch), vertical angle only:
ergonomic: `vert_angle_deg = 0.0`;
reclined: `vert_angle_deg = degrees(atan(0.22))`. -/
def vert_angle_deg (mode : SetupMode) : ℝ :=
  match mode with
  | SetupMode.ergonomic => 0
  | SetupMode.reclined => degrees (Real.arctan 0.22)

/-- Line 185: `tv_bottom_height_cm = tv_centre_height_cm - (screen_height_cm / 2)`. -/
def tv_bottom_height_cm (mode : SetupMode)
    (eye_level_cm final_dist_cm tv_size_inch : ℝ) : ℝ :=
  tv_centre_height_cm mode eye_level_cm final_dist_cm - screen_height_cm tv_size_inch / 2

/-- Lines 188-189: `act_horiz_angle_deg = degrees(2 * atan((screen_width_cm / 2) / final_dist_cm))`. -/
def act_horiz_angle_deg (screen_w_cm final_dist_cm : ℝ) : ℝ :=
  degrees (2 * Real.arctan ((screen_w_cm / 2) / final_dist_cm))

/-- The input record gathered by the form (lines 117, 120, 138, 160-163, 109):
TV diagonal, seated eye level, field-of-view standard, optional manual
distance, and the mounting-style selector. -/
structure Inputs where
  tv_size_inch : ℝ
  eye_level_cm : ℝ
  angle_standard : ℝ
  manual_dist_m : Option ℝ
  setup_mode : SetupMode

/-- The derived quantities displayed by the app. -/
structure Outputs where
  rec_dist_m : ℝ
  final_dist_m : ℝ
  tv_centre_height_cm : ℝ
  tv_bottom_height_cm : ℝ
  vert_angle_deg : ℝ
  act_horiz_angle_deg : ℝ

/-- Lines 162-167: the manual distance overrides the recommendation when given. -/
def final_dist_m (i : Inputs) : ℝ :=
  match i.manual_dist_m with
  | some m => m
  | none => rec_dist_m i.tv_size_inch i.angle_standard

/-- The whole calculation block of `main` (lines 146-189) as one pure function;
`final_dist_cm = final_dist_m * 100` (line 170). -/
def compute (i : Inputs) : Outputs :=
  ⟨rec_dist_m i.tv_size_inch i.angle_standard,
   final_dist_m i,
   tv_centre_height_cm i.setup_mode i.eye_level_cm (final_dist_m i * 100),
   tv_bottom_height_cm i.setup_mode i.eye_level_cm (final_dist_m i * 100) i.tv_size_inch,
   vert_angle_deg i.setup_mode,
   act_horiz_angle_deg (screen_width_cm i.tv_size_inch) (final_dist_m i * 100)⟩

/-- Modelled from the spec: the diagonal-heuristic legacy distance mode
(`distance_inch = tv_size_inch × 1.67`) described in the spec as appearing
in other variants of the repository; it is absent from `streamlit_app.py`. -/
def legacy_rec_dist_inches (tv_size_inch : ℝ) : ℝ := tv_size_inch * 1.67

/-- Modelled from the spec: the legacy recommended distance in meters,
converted like the primary formula via `× 2.54 / 100`. -/
def legacy_rec_dist_m (tv_size_inch : ℝ) : ℝ :=
  legacy_rec_dist_inches tv_size_inch * 2.54 / 100

end

/-! Helper lemmas about the constants appearing in the formulas. -/

lemma sqrt3_ub : Real.sqrt 3 < 1.7320509 := by
  have h := Real.sq_sqrt (by norm_num : (0:ℝ) ≤ 3)
  have hn := Real.sqrt_nonneg 3
  nlinarith

lemma sqrt3_lb : 1.7320508 < Real.sqrt 3 := by
  have h := Real.sq_sqrt (by norm_num : (0:ℝ) ≤ 3)
  have hn := Real.sqrt_nonneg 3
  nlinarith

lemma tan_pi_div_twelve : Real.tan (π / 12) = 2 - Real.sqrt 3 := by
  have h : (π / 12 : ℝ) = π / 3 - π / 4 := by ring
  have e3 : Real.sqrt 3 ^ 2 = 3 := Real.sq_sqrt (by norm_num)
  rw [h, Real.tan_eq_sin_div_cos, Real.sin_sub, Real.cos_sub, Real.sin_pi_div_three,
    Real.cos_pi_div_three, Real.sin_pi_div_four, Real.cos_pi_div_four]
  rw [div_eq_iff (by positivity)]
  linear_combination (Real.sqrt 2 / 4) * e3

lemma fov_pos_lt {f : ℝ} (hf : f = 30 ∨ f = 36 ∨ f = 40) : 0 < f ∧ f < 180 := by
  rcases hf with h | h | h <;> rw [h] <;> norm_num

lemma radians_half_pos {f : ℝ} (h : 0 < f) : 0 < radians f / 2 := by
  unfold radians
  exact div_pos (div_pos (mul_pos h Real.pi_pos) (by norm_num)) (by norm_num)

lemma radians_half_lt {f : ℝ} (h : f < 180) : radians f / 2 < π / 2 := by
  unfold radians
  have hm := mul_lt_mul_of_pos_right h Real.pi_pos
  linarith

lemma tan_radians_half_pos {f : ℝ} (h0 : 0 < f) (h1 : f < 180) :
    0 < Real.tan (radians f / 2) :=
  Real.tan_pos_of_pos_of_lt_pi_div_two (radians_half_pos h0) (radians_half_lt h1)

lemma rec_dist_m_pos {s f : ℝ} (hs : 32 ≤ s) (h0 : 0 < f) (h1 : f < 180) :
    0 < rec_dist_m s f := by
  have ht := tan_radians_half_pos h0 h1
  unfold rec_dist_m rec_dist_inches screen_width_inch
  have hw : (0:ℝ) < s * 0.87157 / 2 := by nlinarith
  exact div_pos (mul_pos (div_pos hw ht) (by norm_num)) (by norm_num)

lemma tan_02147_lt : Real.tan 0.2147 < 0.22 := by
  have habs : |(0.2147:ℝ)| ≤ 1 := by rw [abs_le]; constructor <;> norm_num
  have hs := Real.sin_bound habs
  have hc := Real.cos_bound habs
  have habs2 : |(0.2147:ℝ)| = 0.2147 := abs_of_pos (by norm_num)
  rw [habs2, abs_le] at hs hc
  have hcpos : 0 < Real.cos 0.2147 := by nlinarith [hc.1]
  rw [Real.tan_eq_sin_div_cos, div_lt_iff₀ hcpos]
  nlinarith [hs.2, hc.1]

lemma tan_0218_gt : (0.22:ℝ) < Real.tan 0.218 := by
  have habs : |(0.218:ℝ)| ≤ 1 := by rw [abs_le]; constructor <;> norm_num
  have hs := Real.sin_bound habs
  have hc := Real.cos_bound habs
  have habs2 : |(0.218:ℝ)| = 0.218 := abs_of_pos (by norm_num)
  rw [habs2, abs_le] at hs hc
  have hcpos : 0 < Real.cos 0.218 := by nlinarith [hc.1]
  rw [Real.tan_eq_sin_div_cos, lt_div_iff₀ hcpos]
  nlinarith [hs.1, hc.2]

lemma arctan_022_lb : (0.2147:ℝ) < Real.arctan 0.22 := by
  have h := Real.arctan_strictMono tan_02147_lt
  rwa [Real.arctan_tan (by linarith [Real.pi_gt_three]) (by linarith [Real.pi_gt_three])] at h

lemma arctan_022_ub : Real.arctan 0.22 < 0.218 := by
  have h := Real.arctan_strictMono tan_0218_gt
  rwa [Real.arctan_tan (by linarith [Real.pi_gt_three]) (by linarith [Real.pi_gt_three])] at h

lemma vert_deg_lb : 12.3 < degrees (Real.arctan 0.22) := by
  unfold degrees
  rw [lt_div_iff₀ Real.pi_pos]
  nlinarith [Real.pi_lt_d6, arctan_022_lb]

lemma vert_deg_ub : degrees (Real.arctan 0.22) < 12.5 := by
  unfold degrees
  rw [div_lt_iff₀ Real.pi_pos]
  nlinarith [Real.pi_gt_d6, arctan_022_ub]

lemma degrees_two_arctan_neg {x : ℝ} (hx : x < 0) : degrees (2 * Real.arctan x) < 0 := by
  have ha : Real.arctan x < 0 := by
    have h := Real.arctan_strictMono hx
    rwa [Real.arctan_zero] at h
  unfold degrees
  apply div_neg_of_neg_of_pos _ Real.pi_pos
  nlinarith [ha]

/-- Claim C1: the recommended distance is
`(tv_size_inch × 0.87157 / 2) / tan(radians(fov_deg) / 2) × 2.54 / 100` meters
for every size in [32,120] and fov in {30,36,40}; at size 65 and fov 30 it is
within 0.001 m of 2.685 m. -/
theorem C1_recommended_distance (s f : ℝ) (hs1 : 32 ≤ s) (hs2 : s ≤ 120)
    (hf : f = 30 ∨ f = 36 ∨ f = 40) :
    rec_dist_m s f = (s * 0.87157 / 2) / Real.tan (radians f / 2) * 2.54 / 100 ∧
    |rec_dist_m 65 30 - 2.685| < 0.001 := by
  refine ⟨rfl, ?_⟩
  have h12 : radians 30 / 2 = π / 12 := by unfold radians; ring
  have hd : (0:ℝ) < 2 - Real.sqrt 3 := by nlinarith [sqrt3_ub]
  have hX : rec_dist_m 65 30 = 65 * 0.87157 * 2.54 / 200 / (2 - Real.sqrt 3) := by
    unfold rec_dist_m rec_dist_inches screen_width_inch
    rw [h12, tan_pi_div_twelve]
    ring
  have h1 : (2.684:ℝ) < 65 * 0.87157 * 2.54 / 200 / (2 - Real.sqrt 3) := by
    rw [lt_div_iff₀ hd]
    nlinarith [sqrt3_lb]
  have h2 : (65 * 0.87157 * 2.54 / 200 : ℝ) / (2 - Real.sqrt 3) < 2.686 := by
    rw [div_lt_iff₀ hd]
    nlinarith [sqrt3_ub]
  rw [abs_lt, hX]
  constructor <;> linarith

/-- Witness for C1 at size 65, fov 30. -/
theorem C1_recommended_distance_witness :
    rec_dist_m 65 30 = (65 * 0.87157 / 2) / Real.tan (radians 30 / 2) * 2.54 / 100 :=
  (C1_recommended_distance 65 30 (by norm_num) (by norm_num) (Or.inl rfl)).1

/-- Claim C2: in ergonomic (standard) mode the computed centre height equals
the eye level and the vertical angle is 0, for every valid eye level and
every distance (any manual-distance setting). -/
theorem C2_ergonomic_mode (i : Inputs) (hmode : i.setup_mode = SetupMode.ergonomic)
    (h1 : 50 ≤ i.eye_level_cm) (h2 : i.eye_level_cm ≤ 150) :
    (compute i).tv_centre_height_cm = i.eye_level_cm ∧ (compute i).vert_angle_deg = 0 := by
  refine ⟨?_, ?_⟩ <;> simp [compute, tv_centre_height_cm, vert_angle_deg, hmode]

/-- Witness for C2 at eye level 92 cm, manual distance 3.6 m. -/
theorem C2_ergonomic_mode_witness :
    (compute ⟨65, 92, 30, some 3.6, SetupMode.ergonomic⟩).tv_centre_height_cm = 92 ∧
    (compute ⟨65, 92, 30, some 3.6, SetupMode.ergonomic⟩).vert_angle_deg = 0 :=
  C2_ergonomic_mode ⟨65, 92, 30, some 3.6, SetupMode.ergonomic⟩ rfl
    (by norm_num) (by norm_num)

/-- Claim C4: in both modes the TV bottom height equals the centre height
minus half the screen height, with `screen_height_cm = tv_size_inch × 0.4903 × 2.54`;
concretely, in ergonomic mode with eye level 92 cm and a 65-inch TV the
bottom is within 0.01 cm of 51.53 cm. -/
theorem C4_bottom_height (i : Inputs) :
    (compute i).tv_bottom_height_cm
      = (compute i).tv_centre_height_cm - i.tv_size_inch * 0.4903 * 2.54 / 2 ∧
    |(compute ⟨65, 92, 30, none, SetupMode.ergonomic⟩).tv_bottom_height_cm - 51.53| < 0.01 := by
  constructor
  · simp [compute, tv_bottom_height_cm, screen_height_cm, screen_height_inch]
  · simp [compute, tv_bottom_height_cm, tv_centre_height_cm, screen_height_cm,
      screen_height_inch]
    rw [abs_lt]
    norm_num

/-- Claim C9: the calculation core is a pure function of its five inputs:
identical input records always produce identical output records. -/
theorem C9_deterministic (i1 i2 : Inputs) (h : i1 = i2) : compute i1 = compute i2 := by
  rw [h]

/-- Witness for C9 at a concrete input record. -/
theorem C9_deterministic_witness :
    compute ⟨65, 92, 30, none, SetupMode.ergonomic⟩
      = compute ⟨65, 92, 30, none, SetupMode.ergonomic⟩ :=
  C9_deterministic ⟨65, 92, 30, none, SetupMode.ergonomic⟩
    ⟨65, 92, 30, none, SetupMode.ergonomic⟩ rfl

/-- Claim C10: the bottom height is not guaranteed non-negative on the
documented ranges: with eye level 50 cm (minimum) and a 120-inch TV
(maximum) in ergonomic mode, the computed TV bottom is below the floor. -/
theorem C10_bottom_can_be_negative :
    (32 ≤ (120:ℝ) ∧ (120:ℝ) ≤ 120) ∧ (50 ≤ (50:ℝ) ∧ (50:ℝ) ≤ 150) ∧
    (compute ⟨120, 50, 30, none, SetupMode.ergonomic⟩).tv_bottom_height_cm < 0 := by
  refine ⟨⟨by norm_num, le_refl _⟩, ⟨le_refl _, by norm_num⟩, ?_⟩
  simp [compute, tv_bottom_height_cm, tv_centre_height_cm, screen_height_cm,
    screen_height_inch]
  norm_num

/-- Counterexample to claim C7 as stated: the legacy diagonal-heuristic
distance for a 65-inch TV is 65 × 1.67 × 2.54 / 100 = 2.75717 m, not 2.768 m,
and the corresponding reclined centre height for eye level 92 cm is not 152.9 cm. -/
theorem C7_counterexample :
    legacy_rec_dist_m 65 ≠ 2.768 ∧
    tv_centre_height_cm SetupMode.reclined 92 (legacy_rec_dist_m 65 * 100) ≠ 152.9 := by
  constructor
  · simp only [legacy_rec_dist_m, legacy_rec_dist_inches]
    norm_num
  · simp only [tv_centre_height_cm, legacy_rec_dist_m, legacy_rec_dist_inches]
    norm_num

/-- Claim C7 (amended): the legacy diagonal-heuristic mode, modelled from the
spec, computes `distance_inch = tv_size_inch × 1.67`; for a 65-inch TV this
gives exactly 2.75717 m, and the reclined centre height at eye level 92 cm
and that distance is exactly 152.65774 cm. -/
theorem C7_legacy_mode :
    (∀ s : ℝ, legacy_rec_dist_m s = s * 1.67 * 2.54 / 100) ∧
    legacy_rec_dist_m 65 = 2.75717 ∧
    tv_centre_height_cm SetupMode.reclined 92 (legacy_rec_dist_m 65 * 100) = 152.65774 := by
  refine ⟨fun s => rfl, ?_, ?_⟩
  · simp only [legacy_rec_dist_m, legacy_rec_dist_inches]
    norm_num
  · simp only [tv_centre_height_cm, legacy_rec_dist_m, legacy_rec_dist_inches]
    norm_num

/-- Claim C3: in reclined (theater) mode the centre height is
`eye_level_cm + distance_cm × 0.22` and the vertical angle is `atan(0.22)` in
degrees, a constant that is independent of distance and eye level and lies
strictly between 12.3° and 12.5° (≈ 12.4°). -/
theorem C3_reclined_mode (i : Inputs) (hmode : i.setup_mode = SetupMode.reclined)
    (h1 : 50 ≤ i.eye_level_cm) (h2 : i.eye_level_cm ≤ 150)
    (hd : 0 < final_dist_m i * 100) :
    (compute i).tv_centre_height_cm = i.eye_level_cm + final_dist_m i * 100 * 0.22 ∧
    (compute i).vert_angle_deg = degrees (Real.arctan 0.22) ∧
    (∀ j : Inputs, j.setup_mode = SetupMode.reclined →
      (compute j).vert_angle_deg = (compute i).vert_angle_deg) ∧
    12.3 < (compute i).vert_angle_deg ∧ (compute i).vert_angle_deg < 12.5 := by
  have hv : (compute i).vert_angle_deg = degrees (Real.arctan 0.22) := by
    simp [compute, vert_angle_deg, hmode]
  refine ⟨?_, hv, ?_, ?_, ?_⟩
  · simp [compute, tv_centre_height_cm, hmode]
  · intro j hj
    simp [compute, vert_angle_deg, hj, hmode]
  · rw [hv]
    exact vert_deg_lb
  · rw [hv]
    exact vert_deg_ub

/-- Witness for C3 at eye level 92 cm, manual distance 3.6 m. -/
theorem C3_reclined_mode_witness :
    0 < final_dist_m ⟨65, 92, 30, some 3.6, SetupMode.reclined⟩ * 100 ∧
    (compute ⟨65, 92, 30, some 3.6, SetupMode.reclined⟩).tv_centre_height_cm
      = 92 + final_dist_m ⟨65, 92, 30, some 3.6, SetupMode.reclined⟩ * 100 * 0.22 := by
  have hd : 0 < final_dist_m ⟨65, 92, 30, some 3.6, SetupMode.reclined⟩ * 100 := by
    norm_num [final_dist_m]
  exact ⟨hd, (C3_reclined_mode ⟨65, 92, 30, some 3.6, SetupMode.reclined⟩ rfl
    (by norm_num) (by norm_num) hd).1⟩

/-- Claim C5: at the recommended distance for the chosen fov, the actual
horizontal angle `degrees(2·atan((screen_width/2)/distance))` reproduces the
fov exactly, hence within ±0.01°. -/
theorem C5_round_trip (i : Inputs) (hm : i.manual_dist_m = none)
    (hs1 : 32 ≤ i.tv_size_inch) (hs2 : i.tv_size_inch ≤ 120)
    (hf : i.angle_standard = 30 ∨ i.angle_standard = 36 ∨ i.angle_standard = 40) :
    (compute i).act_horiz_angle_deg = i.angle_standard ∧
    |(compute i).act_horiz_angle_deg - i.angle_standard| ≤ 0.01 := by
  obtain ⟨h0, h180⟩ := fov_pos_lt hf
  have ht := tan_radians_half_pos h0 h180
  have hw : (0:ℝ) < i.tv_size_inch * 0.87157 := by nlinarith
  have hratio : screen_width_cm i.tv_size_inch / 2
      / (rec_dist_m i.tv_size_inch i.angle_standard * 100)
      = Real.tan (radians i.angle_standard / 2) := by
    unfold screen_width_cm screen_width_inch rec_dist_m rec_dist_inches screen_width_inch
    field_simp
    ring
  have hfinal : final_dist_m i = rec_dist_m i.tv_size_inch i.angle_standard := by
    unfold final_dist_m
    rw [hm]
  have hkey : (compute i).act_horiz_angle_deg = i.angle_standard := by
    show act_horiz_angle_deg (screen_width_cm i.tv_size_inch) (final_dist_m i * 100)
      = i.angle_standard
    rw [hfinal]
    unfold act_horiz_angle_deg
    rw [hratio, Real.arctan_tan (by linarith [radians_half_pos h0, Real.pi_pos])
      (radians_half_lt h180)]
    unfold degrees radians
    field_simp
    ring
  refine ⟨hkey, ?_⟩
  rw [hkey, sub_self, abs_zero]
  norm_num

/-- Witness for C5 at size 65, fov 30, no manual distance. -/
theorem C5_round_trip_witness :
    (compute ⟨65, 92, 30, none, SetupMode.ergonomic⟩).act_horiz_angle_deg = 30 :=
  (C5_round_trip ⟨65, 92, 30, none, SetupMode.ergonomic⟩ rfl
    (by norm_num : (32:ℝ) ≤ 65) (by norm_num : (65:ℝ) ≤ 120) (Or.inl rfl)).1

/-- Claim C6: the recommended distance is strictly increasing in the TV size
at a fixed fov, and strictly decreasing in the fov at a fixed size, over the
documented ranges. -/
theorem C6_monotonicity (s1 s2 s f f1 f2 : ℝ)
    (hs1 : 32 ≤ s1) (hs2 : s2 ≤ 120) (h12 : s1 < s2)
    (hf : f = 30 ∨ f = 36 ∨ f = 40)
    (hs : 32 ≤ s) (hsu : s ≤ 120)
    (hf1 : f1 = 30 ∨ f1 = 36 ∨ f1 = 40) (hf2 : f2 = 30 ∨ f2 = 36 ∨ f2 = 40)
    (hff : f1 < f2) :
    rec_dist_m s1 f < rec_dist_m s2 f ∧ rec_dist_m s f2 < rec_dist_m s f1 := by
  obtain ⟨hfa, hfb⟩ := fov_pos_lt hf
  obtain ⟨h1a, h1b⟩ := fov_pos_lt hf1
  obtain ⟨h2a, h2b⟩ := fov_pos_lt hf2
  constructor
  · have ht := tan_radians_half_pos hfa hfb
    unfold rec_dist_m rec_dist_inches screen_width_inch
    have key : s1 * 0.87157 / 2 / Real.tan (radians f / 2)
        < s2 * 0.87157 / 2 / Real.tan (radians f / 2) := by
      apply div_lt_div_of_pos_right ?_ ht
      linarith
    nlinarith [key]
  · have ht1 := tan_radians_half_pos h1a h1b
    have htlt : Real.tan (radians f1 / 2) < Real.tan (radians f2 / 2) := by
      apply Real.tan_lt_tan_of_nonneg_of_lt_pi_div_two (le_of_lt (radians_half_pos h1a))
        (radians_half_lt h2b)
      unfold radians
      have hm := mul_lt_mul_of_pos_right hff Real.pi_pos
      linarith
    unfold rec_dist_m rec_dist_inches screen_width_inch
    have hw : (0:ℝ) < s * 0.87157 / 2 := by nlinarith
    have key := div_lt_div_of_pos_left hw ht1 htlt
    nlinarith [key]

/-- Witness for C6 at sizes 32 < 120 with fov 30, and fovs 30 < 36 at size 65. -/
theorem C6_monotonicity_witness :
    rec_dist_m 32 30 < rec_dist_m 120 30 ∧ rec_dist_m 65 36 < rec_dist_m 65 30 :=
  C6_monotonicity 32 120 65 30 30 36 (by norm_num) (by norm_num) (by norm_num)
    (Or.inl rfl) (by norm_num) (by norm_num) (Or.inl rfl) (Or.inr (Or.inl rfl))
    (by norm_num)

/-- Counterexample to claim C8 as stated: the calculation core contains no
InvalidInput guard; handed a negative manual distance of −3.6 m it still
divides by the non-positive distance and returns a (negative) horizontal
angle instead of failing. -/
theorem C8_counterexample :
    (compute ⟨65, 92, 30, some (-3.6), SetupMode.ergonomic⟩).act_horiz_angle_deg < 0 := by
  have h : (compute ⟨65, 92, 30, some (-3.6), SetupMode.ergonomic⟩).act_horiz_angle_deg
      = degrees (2 * Real.arctan ((screen_width_cm 65 / 2) / (-3.6 * 100))) := by
    simp [compute, act_horiz_angle_deg, final_dist_m]
  rw [h]
  apply degrees_two_arctan_neg
  have hw : (0:ℝ) < screen_width_cm 65 / 2 := by
    norm_num [screen_width_cm, screen_width_inch]
  exact div_neg_of_pos_of_neg hw (by norm_num)

/-- Claim C8 (amended): the core performs no zero/negative-distance check and
computes the horizontal-angle formula unconditionally; for every valid input
(size in [32,120], fov in {30,36,40}, any manual distance in [0.5,10]) the
final distance is positive, so the division is never by a non-positive
number. -/
theorem C8_distance_positive (i : Inputs)
    (hs1 : 32 ≤ i.tv_size_inch) (hs2 : i.tv_size_inch ≤ 120)
    (hf : i.angle_standard = 30 ∨ i.angle_standard = 36 ∨ i.angle_standard = 40)
    (hman : ∀ m, i.manual_dist_m = some m → 0.5 ≤ m ∧ m ≤ 10) :
    0 < (compute i).final_dist_m ∧
    (compute i).act_horiz_angle_deg
      = degrees (2 * Real.arctan ((screen_width_cm i.tv_size_inch / 2)
          / ((compute i).final_dist_m * 100))) := by
  obtain ⟨h0, h180⟩ := fov_pos_lt hf
  refine ⟨?_, rfl⟩
  show 0 < final_dist_m i
  rcases h : i.manual_dist_m with _ | m
  · have : final_dist_m i = rec_dist_m i.tv_size_inch i.angle_standard := by
      unfold final_dist_m
      rw [h]
    rw [this]
    exact rec_dist_m_pos hs1 h0 h180
  · have hv : final_dist_m i = m := by
      unfold final_dist_m
      rw [h]
    rw [hv]
    linarith [(hman m h).1]

/-- Witness for C8 (amended) at size 65, fov 30, no manual distance. -/
theorem C8_distance_positive_witness :
    0 < (compute ⟨65, 92, 30, none, SetupMode.ergonomic⟩).final_dist_m :=
  (C8_distance_positive ⟨65, 92, 30, none, SetupMode.ergonomic⟩
    (by norm_num : (32:ℝ) ≤ 65) (by norm_num : (65:ℝ) ≤ 120) (Or.inl rfl)
    (fun m h => by simp at h)).1

end TVHeight
